import Mathlib

/-!
Verification development for the Qubic-Risk-Radar frontend.

Shallow embedding of the TypeScript frontend code: the exported domain
types (`frontend/src/types`), the `StatusBadge` component, the pagination
controls of the incidents and detections pages, the shared `ApiClient`
(request paths and the auth-token request interceptor), the `App` route
table together with the `ProtectedRoute` component, and the
`OnboardingWizard` state machine (webhook creation, test-status polling,
completion guard).
-/

namespace QubicRiskRadar

/-! ## Domain types (frontend/src/types)

The exported `Incident` interface:

  id, title, severity, category,
  status : 'open' | 'investigating' | 'resolved' | 'closed',
  created_at, resolved_at?
-/

structure Incident where
  id : String
  title : String
  severity : String
  category : String
  status : String
  created_at : String
  resolved_at : Option String
deriving DecidableEq

/-- The field names of the exported `Incident` interface, in source order. -/
def Incident.fieldNames : List String :=
  ["id", "title", "severity", "category", "status", "created_at", "resolved_at"]

/-- The values of the string-literal union `Incident['status']`. -/
def incidentStatusValues : List String :=
  ["open", "investigating", "resolved", "closed"]

/-! ## StatusBadge (components/common/StatusBadge.tsx)

`statusClasses` is a plain object literal with keys `open`, `acknowledged`,
`resolved`; the component renders `statusClasses[status]`, which in
JavaScript is `undefined` for any key not present in the object.
-/

/-- The `statusClasses` object literal of `StatusBadge`. -/
def statusClasses : List (String × String) :=
  [("open", "bg-red-100 text-red-700"),
   ("acknowledged", "bg-yellow-100 text-yellow-700"),
   ("resolved", "bg-green-100 text-green-700")]

/-- The lookup `statusClasses[status]`: `none` models JavaScript `undefined`. -/
def statusClass (status : String) : Option String :=
  statusClasses.lookup status

/-! ## Pagination (pages/IncidentsPage.tsx and pages/Detections.tsx)

Both pages initialise `page` with `useState(1)` and use the identical
updaters `setPage(p => Math.max(1, p - 1))` on the Previous button
(disabled when `page === 1`) and `setPage(p => Math.min(totalPages, p + 1))`
on the Next button (disabled when `page === totalPages`).
-/

/-- Previous click: `setPage(p => Math.max(1, p - 1))`. -/
def clickPrevious (page : Int) : Int := max 1 (page - 1)

/-- Next click: `setPage(p => Math.min(totalPages, p + 1))`. -/
def clickNext (totalPages page : Int) : Int := min totalPages (page + 1)

/-- Whether the Previous button is disabled: `page === 1`. -/
def previousDisabled (page : Int) : Bool := page == 1

/-- Whether the Next button is disabled: `page === totalPages`. -/
def nextDisabled (totalPages page : Int) : Bool := page == totalPages

inductive PageClick where
  | previous : PageClick
  | next : PageClick
deriving DecidableEq

/-- Apply one pagination click. -/
def applyClick (totalPages page : Int) : PageClick → Int
  | .previous => clickPrevious page
  | .next => clickNext totalPages page

/-- Apply a sequence of pagination clicks. -/
def applyClicks (totalPages page : Int) : List PageClick → Int
  | [] => page
  | c :: cs => applyClicks totalPages (applyClick totalPages page c) cs

/-! ## ApiClient (api/client.ts)

Every method of the `ApiClient` class issues a request on a path built from
a string literal (plus, for some methods, an interpolated `id`). The class
also installs a request interceptor that reads
`localStorage.getItem('access_token')` and, `if (token)`, sets
`config.headers.Authorization = Bearer <token>`.
-/

/-- Character-list prefix test (structural recursion, Boolean). -/
def listStartsWith : List Char → List Char → Bool
  | [], _ => true
  | _ :: _, [] => false
  | p :: ps, s :: ss => p == s && listStartsWith ps ss

/-- String prefix test via the underlying character lists. -/
def strStartsWith (p s : String) : Bool :=
  listStartsWith p.data s.data

/-- The methods of the `ApiClient` class, in source order. -/
inductive ApiMethod where
  | getDetections | getDetection | getDetectionStats | submitDetectionFeedback
  | getIncidents | updateIncident | resolveIncident
  | getRoutingRules | createRoutingRule | updateRoutingRule
  | deleteRoutingRule | initDefaultRoutingRules
  | getNotificationLogs | getNotificationStats
  | getWebhooks | getWebhook | createWebhook | updateWebhook | deleteWebhook
  | regenerateWebhookSecret | getWebhookTags | getWebhookStats
  | generateReport | getReports | getReport | getAnalyticsOverview
  | getSeverityStats | getCategoryStats | getTimelineTrend
deriving DecidableEq

/-- The URL path each `ApiClient` method requests; `id` is the interpolated
resource identifier for the methods whose path template contains one
(ignored by the others). -/
def requestPath (m : ApiMethod) (id : String) : String :=
  match m with
  | .getDetections => "/api/detections"
  | .getDetection => "/api/detections/" ++ id
  | .getDetectionStats => "/api/detections/stats"
  | .submitDetectionFeedback => "/api/detections/" ++ id ++ "/feedback"
  | .getIncidents => "/api/detections/incidents"
  | .updateIncident => "/api/detections/incidents/" ++ id
  | .resolveIncident => "/api/detections/incidents/" ++ id ++ "/resolve"
  | .getRoutingRules => "/api/routing-rules"
  | .createRoutingRule => "/api/routing-rules"
  | .updateRoutingRule => "/api/routing-rules/" ++ id
  | .deleteRoutingRule => "/api/routing-rules/" ++ id
  | .initDefaultRoutingRules => "/api/routing-rules/init-defaults"
  | .getNotificationLogs => "/api/notifications/logs"
  | .getNotificationStats => "/api/notifications/stats"
  | .getWebhooks => "/api/webhooks"
  | .getWebhook => "/api/webhooks/" ++ id
  | .createWebhook => "/api/webhooks"
  | .updateWebhook => "/api/webhooks/" ++ id
  | .deleteWebhook => "/api/webhooks/" ++ id
  | .regenerateWebhookSecret => "/api/webhooks/" ++ id ++ "/regenerate-secret"
  | .getWebhookTags => "/api/webhooks/tags/list"
  | .getWebhookStats => "/api/webhooks/stats/overview"
  | .generateReport => "/api/analytics/reports/generate"
  | .getReports => "/api/analytics/reports"
  | .getReport => "/api/analytics/reports/" ++ id
  | .getAnalyticsOverview => "/api/analytics/overview"
  | .getSeverityStats => "/api/analytics/stats/severity"
  | .getCategoryStats => "/api/analytics/stats/categories"
  | .getTimelineTrend => "/api/analytics/trends/timeline"

/-- The path roots the specification lists as the system's REST boundary. -/
def specBoundaryPaths : List String :=
  ["/auth", "/incidents", "/metrics", "/api/detections", "/api/webhooks",
   "/api/routing-rules", "/api/analytics", "/onboarding"]

/-- Whether a path falls under one of the spec's boundary prefixes. -/
def underSpecBoundary (path : String) : Bool :=
  specBoundaryPaths.any (fun p => strStartsWith p path)

/-! ### The auth-token request interceptor -/

/-- An axios request config, reduced to its header map (association list;
`headersGet` looks a header up, `headersSet` models property assignment). -/
structure RequestConfig where
  headers : List (String × String)
deriving DecidableEq

def headersGet (config : RequestConfig) (name : String) : Option String :=
  config.headers.lookup name

def headersSet (config : RequestConfig) (name value : String) : RequestConfig :=
  { config with headers := (name, value) :: config.headers }

/-- The request interceptor installed in the `ApiClient` constructor:
`stored` is `localStorage.getItem('access_token')` at send time (`none`
models `null`). JavaScript `if (token)` is false for `null` and for the
empty string, so the `Authorization` header is set only for a non-empty
stored token. -/
def authInterceptor (stored : Option String) (config : RequestConfig) : RequestConfig :=
  match stored with
  | none => config
  | some token =>
      if token = "" then config
      else headersSet config "Authorization" ("Bearer " ++ token)

/-! ## App routes (App.tsx) and ProtectedRoute (components/ProtectedRoute.tsx)

`App.tsx` renders a `<Routes>` table: `/login` and `/signup` under a
"Public routes" comment; `/` (a `<Navigate to="/dashboard" replace />`)
and `/dashboard`, `/detections`, `/webhooks`, `/analytics` under a
"Protected routes" comment. Each of the four labelled-protected routes
passes its page component directly as `element` — none is wrapped in
`<ProtectedRoute>`.

`ProtectedRoute` renders a loading spinner while `loading`, then
`<Navigate to="/login" />` when `user` is null, then
`<Navigate to="/onboarding" />` when onboarding is incomplete and the
current path is not `/onboarding`, and otherwise its children.
-/

/-- The `User` shape of the auth context. -/
structure User where
  id : String
  email : String
  full_name : String
  is_verified : Bool
  onboarding_completed : Bool
deriving DecidableEq

/-- Auth context state consumed by `ProtectedRoute` via `useAuth()`. -/
structure AuthState where
  user : Option User
  loading : Bool
deriving DecidableEq

/-- What a route element renders to. -/
inductive Rendered where
  | page (name : String) : Rendered
  | redirect (target : String) : Rendered
  | loadingSpinner : Rendered
deriving DecidableEq

/-- A route's `element` in `App.tsx`: a page component rendered directly,
or a `<Navigate>` redirect. (No route in `App.tsx` wraps its element in
`<ProtectedRoute>`, so no constructor for that wrapper is needed to embed
the route table.) -/
inductive RouteElement where
  | pageElement (name : String) : RouteElement
  | navigateElement (target : String) : RouteElement
deriving DecidableEq

/-- The `<Routes>` table of `App.tsx`, in source order. -/
def appRoutes : List (String × RouteElement) :=
  [("/login", .pageElement "LoginPage"),
   ("/signup", .pageElement "SignupPage"),
   ("/", .navigateElement "/dashboard"),
   ("/dashboard", .pageElement "Dashboard"),
   ("/detections", .pageElement "Detections"),
   ("/webhooks", .pageElement "WebhooksManagement"),
   ("/analytics", .pageElement "Analytics")]

/-- The routes `App.tsx` places under its "Protected routes" comment
(excluding the bare `/` redirect). -/
def labelledProtectedRoutes : List String :=
  ["/dashboard", "/detections", "/webhooks", "/analytics"]

/-- Render the `ProtectedRoute` component at a given auth state and
location pathname, around the given children. -/
def ProtectedRoute.render (auth : AuthState) (pathname : String)
    (children : Rendered) : Rendered :=
  if auth.loading then .loadingSpinner
  else
    match auth.user with
    | none => .redirect "/login"
    | some u =>
        if !u.onboarding_completed && pathname != "/onboarding" then
          .redirect "/onboarding"
        else children

/-- Render a route element of `App.tsx` under an auth state. The auth
state is passed so that statements can quantify over it; no element in
`appRoutes` consults it, because `App.tsx` wraps no element in
`<ProtectedRoute>` (page elements render the page, `<Navigate>` elements
redirect, whatever the auth state). -/
def renderElement (auth : AuthState) (element : RouteElement) : Rendered :=
  match auth, element with
  | _, .pageElement n => .page n
  | _, .navigateElement target => .redirect target

/-- Render the route matching `path` in `App.tsx`, if any. -/
def renderAppRoute (auth : AuthState) (path : String) : Option Rendered :=
  (appRoutes.lookup path).map (renderElement auth)

/-! ## OnboardingWizard (pages/OnboardingWizard.tsx)

The wizard's `useState` hooks, flattened into one record; the
`handleCreateWebhook` and `handleComplete` handlers; and the step-2
polling effect (`setInterval` every 3000 ms on `/onboarding/test-status`,
cleared on the first `received` response and by the effect's cleanup).
-/

/-- The wizard's component state (one field per `useState` hook). -/
structure OnboardingState where
  currentStep : Nat
  loading : Bool
  error : String
  alertId : String
  webhookUrl : String
  webhookSecret : String
  webhookConfigured : Bool
  testReceived : Bool
  polling : Bool
  discordId : String
  telegramId : String
  emailEnabled : Bool
  discordVerified : Bool
  telegramVerified : Bool
deriving DecidableEq

/-- Successful response body of `POST /onboarding/webhook`. -/
structure WebhookCreateResponse where
  webhook_url : String
  webhook_secret : String
deriving DecidableEq

/-- JavaScript `detail || fallback` on an optional string `detail`:
the left operand when it is present and truthy (a non-empty string),
otherwise the fallback — `||` falls back on `undefined`, `null` and the
empty string alike. -/
def jsStringOr (detail : Option String) (fallback : String) : String :=
  match detail with
  | some d => if d = "" then fallback else d
  | none => fallback

/-- Handler `handleCreateWebhook`, as a function of the request's outcome:
`Except.ok` carries the response data, `Except.error` carries
`err.response?.data?.detail` (`none` when the optional chain is
`undefined`). The handler first runs `setError('')` and
`setLoading(true)`; on success it stores the webhook URL and secret, sets
`webhookConfigured`, and advances to step 2; on failure it runs
`setError(err.response?.data?.detail || 'Failed to create webhook')`,
where `||` also replaces an empty-string `detail` by the fallback;
`finally` it runs `setLoading(false)`. -/
def handleCreateWebhook (s : OnboardingState)
    (result : Except (Option String) WebhookCreateResponse) : OnboardingState :=
  let s1 := { s with error := "", loading := true }
  match result with
  | .ok d =>
      { s1 with
        webhookUrl := d.webhook_url
        webhookSecret := d.webhook_secret
        webhookConfigured := true
        currentStep := 2
        loading := false }
  | .error detail =>
      { s1 with
        error := jsStringOr detail "Failed to create webhook"
        loading := false }

/-- Handler `handleComplete`, up to the network call: returns the state after the
guard together with whether the `POST /onboarding/complete` request is
issued. When neither channel is verified it only sets the error message
and returns; otherwise it clears the error, sets loading and issues the
request. -/
def handleComplete (s : OnboardingState) : OnboardingState × Bool :=
  if !s.discordVerified && !s.telegramVerified then
    ({ s with
        error := "Please verify at least one notification channel (Discord or Telegram)" },
     false)
  else
    ({ s with error := "", loading := true }, true)

/-! ### The step-2 polling effect -/

/-- The interval period of the step-2 `setInterval`, in milliseconds. -/
def pollIntervalMs : Nat := 3000

/-- The polling state tracked by the step-2 effect: the dependency fields
of the `useEffect`, the `polling` flag, and whether the interval created
by the effect is still active (`setInterval` not yet cleared). -/
structure PollState where
  currentStep : Nat
  webhookConfigured : Bool
  testReceived : Bool
  polling : Bool
  intervalActive : Bool
deriving DecidableEq

/-- The effect's guard condition:
`currentStep === 2 && webhookConfigured && !testReceived`. -/
def pollEffectGuard (s : PollState) : Bool :=
  s.currentStep == 2 && s.webhookConfigured && !s.testReceived

/-- Running the step-2 effect body: when the guard holds it runs
`setPolling(true)` and creates the interval; otherwise it does nothing. -/
def startPollEffect (s : PollState) : PollState :=
  if pollEffectGuard s then { s with polling := true, intervalActive := true } else s

/-- One interval tick: the `GET /onboarding/test-status` callback, given
the response's `received` flag. When `received` is true it runs
`setTestReceived(true)`, `setPolling(false)`, `setCurrentStep(3)` and
`clearInterval(interval)`; otherwise the state is unchanged. A cleared
interval no longer ticks. -/
def pollTick (received : Bool) (s : PollState) : PollState :=
  if s.intervalActive then
    if received then
      { s with testReceived := true, polling := false, currentStep := 3,
               intervalActive := false }
    else s
  else s

/-- A sequence of interval ticks with the given `received` responses. -/
def pollTicks (s : PollState) : List Bool → PollState
  | [] => s
  | r :: rs => pollTicks (pollTick r s) rs

/-- The effect's cleanup function, `() => clearInterval(interval)`. -/
def pollCleanup (s : PollState) : PollState :=
  { s with intervalActive := false }

/-! ## Helper lemmas -/

theorem listStartsWith_append (p s t : List Char) (h : listStartsWith p s = true) :
    listStartsWith p (s ++ t) = true := by
  induction p generalizing s with
  | nil => rfl
  | cons c cs ih =>
      cases s with
      | nil => simp [listStartsWith] at h
      | cons d ds =>
          simp only [listStartsWith, List.cons_append, Bool.and_eq_true] at h ⊢
          exact ⟨h.1, ih ds h.2⟩

theorem strStartsWith_append (p s t : String) (h : strStartsWith p s = true) :
    strStartsWith p (s ++ t) = true := by
  have hd : (s ++ t).data = s.data ++ t.data := String.data_append s t
  unfold strStartsWith at h ⊢
  rw [hd]
  exact listStartsWith_append _ _ _ h

theorem underSpecBoundary_append (s t : String) (h : underSpecBoundary s = true) :
    underSpecBoundary (s ++ t) = true := by
  unfold underSpecBoundary at h ⊢
  rw [List.any_eq_true] at h ⊢
  obtain ⟨p, hp, hps⟩ := h
  exact ⟨p, hp, strStartsWith_append p s t hps⟩

theorem pollTick_false (s : PollState) : pollTick false s = s := by
  simp [pollTick]

theorem pollTicks_replicate_false (s : PollState) (n : Nat) :
    pollTicks s (List.replicate n false) = s := by
  induction n with
  | zero => rfl
  | succ k ih => simp [List.replicate_succ, pollTicks, pollTick_false, ih]

theorem pollTicks_append (s : PollState) (a b : List Bool) :
    pollTicks s (a ++ b) = pollTicks (pollTicks s a) b := by
  induction a generalizing s with
  | nil => rfl
  | cons r rs ih => simp [pollTicks, ih]

theorem pollTicks_inactive (s : PollState) (h : s.intervalActive = false)
    (rs : List Bool) : pollTicks s rs = s := by
  induction rs with
  | nil => rfl
  | cons r rest ih => simp [pollTicks, pollTick, h, ih]

theorem applyClicks_bounds (totalPages : Int) (h : 1 ≤ totalPages)
    (clicks : List PageClick) :
    ∀ p : Int, 1 ≤ p → p ≤ totalPages →
      1 ≤ applyClicks totalPages p clicks ∧ applyClicks totalPages p clicks ≤ totalPages := by
  induction clicks with
  | nil => exact fun p h1 h2 => ⟨h1, h2⟩
  | cons c cs ih =>
      intro p h1 h2
      apply ih
      · cases c <;> (simp [applyClick, clickPrevious, clickNext]; try omega)
      · cases c <;> (simp [applyClick, clickPrevious, clickNext]; try omega)

/-! ## Claim theorems -/

/-- C2 counterexample: the `ApiClient` method `getNotificationLogs` requests
`/api/notifications/logs`, which falls under none of the path roots the
spec lists as the system boundary. -/
theorem C2_notifications_path_counterexample :
    requestPath ApiMethod.getNotificationLogs "" = "/api/notifications/logs" ∧
    underSpecBoundary (requestPath ApiMethod.getNotificationLogs "") = false := by
  decide

/-- C2 (amended): every `ApiClient` method other than `getNotificationLogs`
and `getNotificationStats` requests a path under one of the spec's listed
boundary roots, for every interpolated resource id. -/
theorem C2_paths_within_boundary (m : ApiMethod) (id : String)
    (h1 : m ≠ ApiMethod.getNotificationLogs) (h2 : m ≠ ApiMethod.getNotificationStats) :
    underSpecBoundary (requestPath m id) = true := by
  cases m <;>
    first
      | exact absurd rfl h1
      | exact absurd rfl h2
      | exact underSpecBoundary_append _ _ (by decide)
      | exact underSpecBoundary_append _ _ (underSpecBoundary_append _ _ (by decide))
      | (simp only [requestPath]; decide)

/-- C2 witness: `getDetection "abc"` requests a path under the boundary. -/
theorem C2_paths_within_boundary_witness :
    underSpecBoundary (requestPath ApiMethod.getDetection "abc") = true :=
  C2_paths_within_boundary ApiMethod.getDetection "abc" (by decide) (by decide)

/-- C3 counterexample: the exported `Incident` type has no `protocol`
field. -/
theorem C3_incident_protocol_counterexample :
    ¬ ("protocol" ∈ Incident.fieldNames) := by
  decide

/-- C3 (amended): the exported `Incident` type is a flat record carrying
its timestamps (`created_at`, `resolved_at`) and a `status`, but no
`protocol` field. -/
theorem C3_incident_fields :
    "created_at" ∈ Incident.fieldNames ∧
    "resolved_at" ∈ Incident.fieldNames ∧
    "status" ∈ Incident.fieldNames ∧
    "protocol" ∉ Incident.fieldNames := by
  decide

/-- C8: the `StatusBadge` class map has exactly the keys `open`,
`acknowledged`, `resolved`; over the statuses permitted by the exported
`Incident` type, the lookup is defined exactly for `open` and `resolved`,
and in particular yields no class for `investigating` or `closed`. -/
theorem C8_status_badge_classes :
    statusClasses.map Prod.fst = ["open", "acknowledged", "resolved"] ∧
    statusClass "investigating" = none ∧
    statusClass "closed" = none ∧
    statusClass "open" = some "bg-red-100 text-red-700" ∧
    statusClass "acknowledged" = some "bg-yellow-100 text-yellow-700" ∧
    statusClass "resolved" = some "bg-green-100 text-green-700" ∧
    (incidentStatusValues.all
      (fun st => (statusClass st).isSome == (st == "open" || st == "resolved"))) = true := by
  decide

/-- C1: on the routes `App.tsx` labels as protected, with auth loading
finished and no user, the rendered output is the page component itself,
not a redirect to `/login` — `App.tsx` wraps none of these routes in
`ProtectedRoute` — while the (unused) `ProtectedRoute` component itself
would redirect to `/login` in exactly that auth state. -/
theorem C1_protected_routes_render_unguarded :
    renderAppRoute ⟨none, false⟩ "/dashboard" = some (.page "Dashboard") ∧
    renderAppRoute ⟨none, false⟩ "/detections" = some (.page "Detections") ∧
    renderAppRoute ⟨none, false⟩ "/webhooks" = some (.page "WebhooksManagement") ∧
    renderAppRoute ⟨none, false⟩ "/analytics" = some (.page "Analytics") ∧
    (labelledProtectedRoutes.all
      (fun r => renderAppRoute ⟨none, false⟩ r != some (.redirect "/login"))) = true ∧
    ProtectedRoute.render ⟨none, false⟩ "/dashboard" (.page "Dashboard") =
      .redirect "/login" := by
  decide

/-- C4: in the step-2 state (step 2, webhook configured, test flag not yet
received) the wizard starts a 3000 ms polling interval; ticks whose
response has `received = false` leave the state unchanged, and the first
tick whose response has `received = true` marks the test received, stops
polling, clears the interval and advances to step 3; after that, no
further tick changes the state and re-running the effect does not restart
the interval. -/
theorem C4_onboarding_polling (s : PollState)
    (h1 : s.currentStep = 2) (h2 : s.webhookConfigured = true)
    (h3 : s.testReceived = false) :
    pollIntervalMs = 3000 ∧
    (startPollEffect s).polling = true ∧
    (startPollEffect s).intervalActive = true ∧
    (∀ n : Nat, pollTicks (startPollEffect s) (List.replicate n false) = startPollEffect s) ∧
    (∀ n : Nat,
      pollTicks (startPollEffect s) (List.replicate n false ++ [true]) =
        ⟨3, s.webhookConfigured, true, false, false⟩ ∧
      startPollEffect (⟨3, s.webhookConfigured, true, false, false⟩ : PollState) =
        ⟨3, s.webhookConfigured, true, false, false⟩ ∧
      ∀ rs : List Bool,
        pollTicks (⟨3, s.webhookConfigured, true, false, false⟩ : PollState) rs =
          ⟨3, s.webhookConfigured, true, false, false⟩) := by
  have hstart : startPollEffect s = { s with polling := true, intervalActive := true } := by
    simp [startPollEffect, pollEffectGuard, h1, h2, h3]
  refine ⟨rfl, by rw [hstart], by rw [hstart], ?_, ?_⟩
  · intro n
    exact pollTicks_replicate_false _ n
  · intro n
    refine ⟨?_, ?_, ?_⟩
    · rw [pollTicks_append, pollTicks_replicate_false, hstart]
      simp [pollTicks, pollTick]
    · simp [startPollEffect, pollEffectGuard]
    · exact fun rs => pollTicks_inactive _ rfl rs

/-- C4 witness: the theorem instantiated at the concrete step-2 state. -/
theorem C4_onboarding_polling_witness :
    pollIntervalMs = 3000 ∧
    pollTicks (startPollEffect ⟨2, true, false, false, false⟩)
        (List.replicate 2 false ++ [true]) = ⟨3, true, true, false, false⟩ :=
  ⟨(C4_onboarding_polling ⟨2, true, false, false, false⟩ rfl rfl rfl).1,
   ((C4_onboarding_polling ⟨2, true, false, false, false⟩ rfl rfl rfl).2.2.2.2 2).1⟩

/-- C5 counterexample: with the empty string stored under `access_token`,
the interceptor attaches no `Authorization` header at all (JavaScript
`if (token)` is false on the empty string), although the claim's
"exactly when" reading would require the header `Bearer `. -/
theorem C5_empty_token_counterexample :
    headersGet (authInterceptor (some "") ⟨[]⟩) "Authorization" = none ∧
    headersGet (authInterceptor (some "") ⟨[]⟩) "Authorization" ≠
      some ("Bearer " ++ "") := by
  decide

/-- C5 (amended): a request whose config carries no `Authorization` header
leaves the interceptor with `Authorization = "Bearer " + t` exactly when a
non-empty token `t` is stored under `access_token`; with no stored token,
or the empty string stored, no `Authorization` header is attached. -/
theorem C5_auth_header (stored : Option String) (t : String) (config : RequestConfig)
    (h : headersGet config "Authorization" = none) :
    ((stored = some t ∧ t ≠ "") →
      headersGet (authInterceptor stored config) "Authorization" =
        some ("Bearer " ++ t)) ∧
    ((stored = none ∨ stored = some "") →
      headersGet (authInterceptor stored config) "Authorization" = none) := by
  constructor
  · rintro ⟨rfl, ht⟩
    simp [authInterceptor, ht, headersGet, headersSet, List.lookup]
  · rintro (rfl | rfl)
    · simpa [authInterceptor] using h
    · simpa [authInterceptor] using h

/-- C5 witness: the amended theorem at a stored token `tok`. -/
theorem C5_auth_header_witness :
    headersGet (authInterceptor (some "tok") ⟨[]⟩) "Authorization" =
      some ("Bearer " ++ "tok") :=
  (C5_auth_header (some "tok") "tok" ⟨[]⟩ rfl).1 ⟨rfl, by decide⟩

/-- C6: the cleanup function returned by the step-2 effect clears the
interval the effect created: after running the effect and then its
cleanup, the interval is inactive and no tick (single or repeated) changes
the state any further. -/
theorem C6_interval_teardown (s : PollState) :
    (pollCleanup (startPollEffect s)).intervalActive = false ∧
    (∀ r : Bool, pollTick r (pollCleanup (startPollEffect s)) =
      pollCleanup (startPollEffect s)) ∧
    (∀ rs : List Bool, pollTicks (pollCleanup (startPollEffect s)) rs =
      pollCleanup (startPollEffect s)) := by
  refine ⟨rfl, ?_, ?_⟩
  · intro r
    simp [pollTick, pollCleanup]
  · exact fun rs => pollTicks_inactive _ rfl rs

/-- C6 witness: teardown at the concrete step-2 state. -/
theorem C6_interval_teardown_witness :
    (pollCleanup (startPollEffect ⟨2, true, false, false, false⟩)).intervalActive = false :=
  (C6_interval_teardown ⟨2, true, false, false, false⟩).1

/-- C7: from the step-1 state (step 1, webhook not configured, no URL or
secret stored), a failed `POST /onboarding/webhook` surfaces a
human-readable error — the server's `detail` when that is a non-empty
string, and `Failed to create webhook` when the `detail` chain is absent
or empty (JavaScript `||`), so the message is never empty — and leaves
the webhook state unchanged (not configured, still step 1, no URL, no
secret, loading reset); a successful call stores the returned URL and
secret, marks the webhook configured and advances to step 2. -/
theorem C7_create_webhook (s : OnboardingState)
    (h1 : s.currentStep = 1) (h2 : s.webhookConfigured = false)
    (h3 : s.webhookUrl = "") (h4 : s.webhookSecret = "") :
    (∀ d : String, d ≠ "" →
      (handleCreateWebhook s (.error (some d))).error = d) ∧
    (handleCreateWebhook s (.error none)).error = "Failed to create webhook" ∧
    (handleCreateWebhook s (.error (some ""))).error = "Failed to create webhook" ∧
    (∀ detail : Option String,
      (handleCreateWebhook s (.error detail)).error ≠ "" ∧
      (handleCreateWebhook s (.error detail)).webhookConfigured = false ∧
      (handleCreateWebhook s (.error detail)).currentStep = 1 ∧
      (handleCreateWebhook s (.error detail)).webhookUrl = "" ∧
      (handleCreateWebhook s (.error detail)).webhookSecret = "" ∧
      (handleCreateWebhook s (.error detail)).loading = false) ∧
    (∀ d : WebhookCreateResponse,
      (handleCreateWebhook s (.ok d)).webhookUrl = d.webhook_url ∧
      (handleCreateWebhook s (.ok d)).webhookSecret = d.webhook_secret ∧
      (handleCreateWebhook s (.ok d)).webhookConfigured = true ∧
      (handleCreateWebhook s (.ok d)).currentStep = 2 ∧
      (handleCreateWebhook s (.ok d)).loading = false) := by
  refine ⟨?_, ?_, ?_, ?_, ?_⟩
  · intro d hd
    simp [handleCreateWebhook, jsStringOr, hd]
  · simp [handleCreateWebhook, jsStringOr]
  · simp [handleCreateWebhook, jsStringOr]
  · intro detail
    refine ⟨?_, by simp [handleCreateWebhook, h2], by simp [handleCreateWebhook, h1],
      by simp [handleCreateWebhook, h3], by simp [handleCreateWebhook, h4],
      by simp [handleCreateWebhook]⟩
    match detail with
    | none => simp [handleCreateWebhook, jsStringOr]
    | some d =>
        by_cases hd : d = "" <;> simp [handleCreateWebhook, jsStringOr, hd]
  · intro d
    simp [handleCreateWebhook]

/-- C7 witness: the theorem at the initial wizard state, for a failure
without a `detail`, a failure with an empty `detail`, a failure with a
non-empty `detail`, and a success. -/
theorem C7_create_webhook_witness :
    (handleCreateWebhook
        ⟨1, false, "", "", "", "", false, false, false, "", "", true, false, false⟩
        (.error none)).error = "Failed to create webhook" ∧
    (handleCreateWebhook
        ⟨1, false, "", "", "", "", false, false, false, "", "", true, false, false⟩
        (.error (some ""))).error = "Failed to create webhook" ∧
    (handleCreateWebhook
        ⟨1, false, "", "", "", "", false, false, false, "", "", true, false, false⟩
        (.error (some "Alert not found"))).error = "Alert not found" ∧
    (handleCreateWebhook
        ⟨1, false, "", "", "", "", false, false, false, "", "", true, false, false⟩
        (.ok ⟨"https://hook", "secret123"⟩)).webhookConfigured = true :=
  ⟨(C7_create_webhook
      ⟨1, false, "", "", "", "", false, false, false, "", "", true, false, false⟩
      rfl rfl rfl rfl).2.1,
   (C7_create_webhook
      ⟨1, false, "", "", "", "", false, false, false, "", "", true, false, false⟩
      rfl rfl rfl rfl).2.2.1,
   (C7_create_webhook
      ⟨1, false, "", "", "", "", false, false, false, "", "", true, false, false⟩
      rfl rfl rfl rfl).1 "Alert not found" (by decide),
   ((C7_create_webhook
      ⟨1, false, "", "", "", "", false, false, false, "", "", true, false, false⟩
      rfl rfl rfl rfl).2.2.2.2 ⟨"https://hook", "secret123"⟩).2.2.1⟩

/-- C9: starting from page 1, any sequence of Previous/Next clicks keeps
the page within `[1, totalPages]` whenever `totalPages ≥ 1`; the Previous
button is disabled at page 1 and the Next button at `totalPages`, and the
click updaters are identities at those bounds. -/
theorem C9_pagination_invariant (totalPages : Int) (h : 1 ≤ totalPages)
    (clicks : List PageClick) :
    (1 ≤ applyClicks totalPages 1 clicks ∧ applyClicks totalPages 1 clicks ≤ totalPages) ∧
    previousDisabled 1 = true ∧
    nextDisabled totalPages totalPages = true ∧
    clickPrevious 1 = 1 ∧
    clickNext totalPages totalPages = totalPages := by
  refine ⟨applyClicks_bounds totalPages h clicks 1 le_rfl h, rfl, ?_, by decide, ?_⟩
  · simp [nextDisabled]
  · simp [clickNext]

/-- C9 witness: a concrete click sequence with three pages. -/
theorem C9_pagination_invariant_witness :
    1 ≤ applyClicks 3 1 [PageClick.next, PageClick.next, PageClick.previous] ∧
    applyClicks 3 1 [PageClick.next, PageClick.next, PageClick.previous] ≤ 3 :=
  (C9_pagination_invariant 3 (by decide)
    [PageClick.next, PageClick.next, PageClick.previous]).1

/-- C10: `handleComplete` issues the completion request only when Discord
or Telegram is verified; with neither verified it only sets the
verification error message (all other state unchanged) and performs no
request, and with at least one verified it clears the error, sets loading
and issues the request. -/
theorem C10_complete_guard (s : OnboardingState) :
    ((s.discordVerified = false ∧ s.telegramVerified = false) →
      (handleComplete s).2 = false ∧
      (handleComplete s).1 =
        { s with error :=
            "Please verify at least one notification channel (Discord or Telegram)" }) ∧
    ((s.discordVerified = true ∨ s.telegramVerified = true) →
      (handleComplete s).2 = true ∧
      (handleComplete s).1 = { s with error := "", loading := true }) := by
  constructor
  · rintro ⟨hd, ht⟩
    simp [handleComplete, hd, ht]
  · rintro (hd | ht)
    · simp [handleComplete, hd]
    · simp [handleComplete, ht]

/-- C10 witness: the guard at a state with no channel verified, and at a
state with Discord verified. -/
theorem C10_complete_guard_witness :
    (handleComplete
        ⟨3, false, "", "", "", "", true, true, false, "", "", true, false, false⟩).2 =
      false ∧
    (handleComplete
        ⟨3, false, "", "", "", "", true, true, false, "", "", true, true, false⟩).2 =
      true :=
  ⟨((C10_complete_guard
      ⟨3, false, "", "", "", "", true, true, false, "", "", true, false, false⟩).1
      ⟨rfl, rfl⟩).1,
   ((C10_complete_guard
      ⟨3, false, "", "", "", "", true, true, false, "", "", true, true, false⟩).2
      (Or.inl rfl)).1⟩

end QubicRiskRadar
